import Mathlib

/-!
Verification of the server-side game-state manager of killer-queen-3d
(`src/server/src/index.ts`), shallowly embedded in Lean 4.

Modelling decisions:
* `Player.id` is a `Nat` (the source uses a uuid string; only freshness and
  equality matter, so ids are drawn from a counter `ServerState.nextId`).
* `GameState.players` is a `List Player`, standing for the JS object
  `Record<string, Player>` in insertion order; lookup is `find?` on the id,
  insertion of a fresh key is append, keyed update is a `map`, deletion is a
  `filter`.
* Each socket handler becomes a pure function from the server state and the
  per-connection data (`Conn`, i.e. `hasJoined` and `socket.data.playerId`)
  to a result `HResult` carrying the new state, the new connection data, the
  list of emitted events (in emission order) and the list of timers the
  handler scheduled via `setTimeout`.  A timer's later firing is a separate
  pure function on `GameState` (e.g. `fireQueenRespawn`).
* Positions/rotations are integer triples; the handlers never compute with
  them, they only store what the client sent.
-/

inductive Team where
  | blue
  | gold
deriving DecidableEq, Repr

inductive Role where
  | queen
  | worker
  | soldier
deriving DecidableEq, Repr

inductive Status where
  | waiting
  | starting
  | playing
  | ended
deriving DecidableEq, Repr

inductive Reason where
  | economic
  | military
  | snail
deriving DecidableEq, Repr

/-- A 3-component vector as reported by clients. -/
abbrev Vec3 := Int × Int × Int

/-- The `Player` interface of `index.ts`. -/
structure Player where
  id : Nat
  position : Vec3
  rotation : Vec3
  team : Team
  role : Role
  isActive : Bool
deriving DecidableEq, Repr

/-- The per-team berry counters of `GameState.berryCount`. -/
structure BerryCount where
  blue : Nat
  gold : Nat
deriving DecidableEq, Repr

/-- The `GameState` interface of `index.ts`. -/
structure GameState where
  status : Status
  players : List Player
  blueScore : Nat
  goldScore : Nat
  blueQueenAlive : Bool
  goldQueenAlive : Bool
  snailPosition : Int
  berryCount : BerryCount
deriving DecidableEq, Repr

/-- `initialGameState` from `index.ts`. -/
def initialGameState : GameState :=
  { status := Status.waiting
    players := []
    blueScore := 0
    goldScore := 0
    blueQueenAlive := true
    goldQueenAlive := true
    snailPosition := 50
    berryCount := { blue := 0, gold := 0 } }

/-- The mutable server state: the shared `gameState` plus the id source
(standing for the uuid generator: each allocation is fresh). -/
structure ServerState where
  game : GameState
  nextId : Nat
deriving DecidableEq, Repr

def initialServerState : ServerState :=
  { game := initialGameState, nextId := 0 }

/-- Per-connection data: the closure variable `hasJoined` and
`socket.data.playerId`.  A freshly connected socket is `⟨false, none⟩`. -/
structure Conn where
  hasJoined : Bool
  playerId : Option Nat
deriving DecidableEq, Repr

def freshConn : Conn := ⟨false, none⟩

/-- Server-to-client events, in the order a handler emits them. -/
inductive Event where
  | gameState
  | playerAssigned (playerId : Nat) (team : Team) (role : Role)
  | gameOver (winner : Team) (reason : Reason)
  | playerPositionUpdate (id : Nat) (position : Vec3) (rotation : Vec3)
deriving DecidableEq, Repr

/-- A pending `setTimeout` scheduled by a handler. -/
inductive Timer where
  | queenRespawn (target : Team)
  | disconnectSweep (playerId : Nat)
  | leaveSweep (playerId : Nat)
deriving DecidableEq, Repr

/-- Result of running one socket handler. -/
structure HResult where
  srv : ServerState
  conn : Conn
  events : List Event
  timers : List Timer
deriving DecidableEq, Repr

/-- `gameState.players[pid]` lookup. -/
def findPlayer (g : GameState) (pid : Nat) : Option Player :=
  g.players.find? (fun p => p.id == pid)

/-- `assignTeamAndRole` from `index.ts`: team with fewer players (ties blue);
queen if the team is empty or has no queen; otherwise worker iff the team's
worker count is ≤ its soldier count. -/
def assignTeamAndRole (players : List Player) : Team × Role :=
  let blueCount := (players.filter (fun p => decide (p.team = Team.blue))).length
  let goldCount := (players.filter (fun p => decide (p.team = Team.gold))).length
  let team := if blueCount ≤ goldCount then Team.blue else Team.gold
  let teamPlayers := players.filter (fun p => decide (p.team = team))
  if teamPlayers.length = 0 then
    (team, Role.queen)
  else if !(teamPlayers.any (fun p => decide (p.role = Role.queen))) then
    (team, Role.queen)
  else
    let workerCount := (teamPlayers.filter (fun p => decide (p.role = Role.worker))).length
    let soldierCount := (teamPlayers.filter (fun p => decide (p.role = Role.soldier))).length
    (team, if workerCount ≤ soldierCount then Role.worker else Role.soldier)

/-- Team-dependent spawn position used by `joinGame` and the
`reconnectPlayer` fallback. -/
def spawnPosition (team : Team) : Vec3 :=
  if team = Team.blue then (-15, 5, 0) else (15, 5, 0)

/-- Shared body of `joinGame` and the unknown-id branch of
`reconnectPlayer`: allocate a fresh id, assign team/role, insert the new
active player, start the game at roster size ≥ 2, bind the connection. -/
def insertNewPlayer (srv : ServerState) : ServerState × Conn × Nat × Team × Role :=
  let playerId := srv.nextId
  let (team, role) := assignTeamAndRole srv.game.players
  let newPlayer : Player :=
    { id := playerId
      position := spawnPosition team
      rotation := (0, 0, 0)
      team := team
      role := role
      isActive := true }
  let players := srv.game.players ++ [newPlayer]
  let status :=
    if srv.game.status = Status.waiting ∧ 2 ≤ players.length then Status.playing
    else srv.game.status
  (⟨{ srv.game with players := players, status := status }, srv.nextId + 1⟩,
   ⟨true, some playerId⟩, playerId, team, role)

/-- The `joinGame` handler. -/
def joinGame (srv : ServerState) (conn : Conn) : HResult :=
  if conn.hasJoined || conn.playerId.isSome then
    ⟨srv, conn, [], []⟩
  else
    let (srv', conn', playerId, team, role) := insertNewPlayer srv
    ⟨srv', conn', [Event.playerAssigned playerId team role, Event.gameState], []⟩

/-- The `playerUpdate` handler. -/
def playerUpdate (srv : ServerState) (conn : Conn) (position rotation : Vec3) : HResult :=
  match conn.playerId with
  | none => ⟨srv, conn, [], []⟩
  | some pid =>
    match findPlayer srv.game pid with
    | none => ⟨srv, conn, [], []⟩
    | some _ =>
      let players := srv.game.players.map fun p =>
        if p.id == pid then { p with position := position, rotation := rotation } else p
      ⟨⟨{ srv.game with players := players }, srv.nextId⟩, conn,
       [Event.playerPositionUpdate pid position rotation], []⟩

/-- Read a team's berry counter. -/
def berryOf (g : GameState) (t : Team) : Nat :=
  match t with
  | Team.blue => g.berryCount.blue
  | Team.gold => g.berryCount.gold

/-- Bump a team's berry counter. -/
def bumpBerry (b : BerryCount) (t : Team) : BerryCount :=
  match t with
  | Team.blue => { b with blue := b.blue + 1 }
  | Team.gold => { b with gold := b.gold + 1 }

/-- The `collectBerry` handler. -/
def collectBerry (srv : ServerState) (conn : Conn) : HResult :=
  match conn.playerId with
  | none => ⟨srv, conn, [], []⟩
  | some pid =>
    match findPlayer srv.game pid with
    | none => ⟨srv, conn, [], []⟩
    | some player =>
      if player.role = Role.worker then
        let g := { srv.game with berryCount := bumpBerry srv.game.berryCount player.team }
        if 12 ≤ berryOf g player.team then
          ⟨⟨{ g with status := Status.ended }, srv.nextId⟩, conn,
           [Event.gameOver player.team Reason.economic, Event.gameState], []⟩
        else
          ⟨⟨g, srv.nextId⟩, conn, [Event.gameState], []⟩
      else
        ⟨srv, conn, [], []⟩

/-- The `moveSnail` handler. -/
def moveSnail (srv : ServerState) (conn : Conn) : HResult :=
  match conn.playerId with
  | none => ⟨srv, conn, [], []⟩
  | some pid =>
    match findPlayer srv.game pid with
    | none => ⟨srv, conn, [], []⟩
    | some player =>
      if player.role = Role.worker then
        let direction : Int := if player.team = Team.blue then 1 else -1
        let snail := min 100 (max 0 (srv.game.snailPosition + direction))
        let g := { srv.game with snailPosition := snail }
        if 100 ≤ snail then
          ⟨⟨{ g with status := Status.ended }, srv.nextId⟩, conn,
           [Event.gameOver Team.blue Reason.snail, Event.gameState], []⟩
        else if snail ≤ 0 then
          ⟨⟨{ g with status := Status.ended }, srv.nextId⟩, conn,
           [Event.gameOver Team.gold Reason.snail, Event.gameState], []⟩
        else
          ⟨⟨g, srv.nextId⟩, conn, [Event.gameState], []⟩
      else
        ⟨srv, conn, [], []⟩

/-- `targetTeam` in the `attackQueen` handler: the team opposing the
attacker. -/
def oppositeTeam (t : Team) : Team :=
  if t = Team.blue then Team.gold else Team.blue

/-- Read a team's queen-alive flag. -/
def queenAliveOf (g : GameState) (t : Team) : Bool :=
  match t with
  | Team.blue => g.blueQueenAlive
  | Team.gold => g.goldQueenAlive

/-- The `attackQueen` handler.  Note the military-victory check tests
`blueScore >= 3` before `goldScore >= 3`. -/
def attackQueen (srv : ServerState) (conn : Conn) : HResult :=
  match conn.playerId with
  | none => ⟨srv, conn, [], []⟩
  | some pid =>
    match findPlayer srv.game pid with
    | none => ⟨srv, conn, [], []⟩
    | some player =>
      if player.role = Role.soldier then
        let targetTeam := oppositeTeam player.team
        let g : GameState :=
          if targetTeam = Team.blue then
            { srv.game with blueQueenAlive := false, goldScore := srv.game.goldScore + 1 }
          else
            { srv.game with goldQueenAlive := false, blueScore := srv.game.blueScore + 1 }
        if 3 ≤ g.blueScore then
          ⟨⟨{ g with status := Status.ended }, srv.nextId⟩, conn,
           [Event.gameOver Team.blue Reason.military, Event.gameState],
           [Timer.queenRespawn targetTeam]⟩
        else if 3 ≤ g.goldScore then
          ⟨⟨{ g with status := Status.ended }, srv.nextId⟩, conn,
           [Event.gameOver Team.gold Reason.military, Event.gameState],
           [Timer.queenRespawn targetTeam]⟩
        else
          ⟨⟨g, srv.nextId⟩, conn, [Event.gameState], [Timer.queenRespawn targetTeam]⟩
      else
        ⟨srv, conn, [], []⟩

/-- Firing of the respawn `setTimeout` scheduled by `attackQueen`: set the
targeted queen's alive flag back to true and broadcast, whatever the game
state has become in the meantime. -/
def fireQueenRespawn (target : Team) (g : GameState) : GameState × List Event :=
  let g' :=
    if target = Team.blue then { g with blueQueenAlive := true }
    else { g with goldQueenAlive := true }
  (g', [Event.gameState])

/-- The `disconnect` handler: mark the bound player inactive and schedule
the 30-second removal sweep. -/
def disconnectHandler (srv : ServerState) (conn : Conn) : HResult :=
  match conn.playerId with
  | none => ⟨srv, conn, [], []⟩
  | some pid =>
    match findPlayer srv.game pid with
    | none => ⟨srv, conn, [], []⟩
    | some _ =>
      let players := srv.game.players.map fun p =>
        if p.id == pid then { p with isActive := false } else p
      ⟨⟨{ srv.game with players := players }, srv.nextId⟩, conn,
       [Event.gameState], [Timer.disconnectSweep pid]⟩

/-- The `leaveGame` handler (its immediate part): mark inactive and schedule
the 1-second removal sweep. -/
def leaveGame (srv : ServerState) (conn : Conn) : HResult :=
  match conn.playerId with
  | none => ⟨srv, conn, [], []⟩
  | some pid =>
    match findPlayer srv.game pid with
    | none => ⟨srv, conn, [], []⟩
    | some _ =>
      let players := srv.game.players.map fun p =>
        if p.id == pid then { p with isActive := false } else p
      ⟨⟨{ srv.game with players := players }, srv.nextId⟩, conn,
       [Event.gameState], [Timer.leaveSweep pid]⟩

/-- The `reconnectPlayer` handler: rebind when the id exists, otherwise fall
back to fresh-join semantics plus a `playerAssigned` ack. -/
def reconnectPlayer (srv : ServerState) (conn : Conn) (pid : Nat) : HResult :=
  match findPlayer srv.game pid with
  | some _ =>
    let players := srv.game.players.map fun p =>
      if p.id == pid then { p with isActive := true } else p
    ⟨⟨{ srv.game with players := players }, srv.nextId⟩, ⟨true, some pid⟩,
     [Event.gameState, Event.gameState], []⟩
  | none =>
    let (srv', conn', newPlayerId, team, role) := insertNewPlayer srv
    ⟨srv', conn', [Event.playerAssigned newPlayerId team role, Event.gameState], []⟩

/-- `resetGame` from `index.ts`: replace the whole `GameState` with a fresh
copy of the initial value and broadcast. -/
def resetGame (srv : ServerState) : ServerState × List Event :=
  (⟨initialGameState, srv.nextId⟩, [Event.gameState])

/-- One firing of the periodic 10-minute idle sweep: reset only when the
game has ended. -/
def idleResetTick (srv : ServerState) : ServerState × List Event :=
  if srv.game.status = Status.ended then resetGame srv else (srv, [])

/-! ### The whole server: several connections against the shared state -/

/-- A client-to-server message, as dispatched by the socket handlers. -/
inductive Msg where
  | joinGame
  | leaveGame
  | playerUpdate (position : Vec3) (rotation : Vec3)
  | collectBerry
  | moveSnail
  | attackQueen
  | reconnectPlayer (playerId : Nat)
  | disconnect
deriving DecidableEq, Repr

/-- Whole-system state: the shared server state plus the per-connection data
of every socket, keyed by a connection id.  A socket that has not sent
anything yet carries the fresh-connection defaults. -/
structure SysState where
  srv : ServerState
  conns : Nat → Conn

def initialSysState : SysState := ⟨initialServerState, fun _ => freshConn⟩

/-- The connection data of socket `cid`. -/
def getConn (sys : SysState) (cid : Nat) : Conn :=
  sys.conns cid

def setConn (conns : Nat → Conn) (cid : Nat) (c : Conn) : Nat → Conn :=
  fun x => if x = cid then c else conns x

/-- Dispatch one inbound message on one connection. -/
def dispatch (srv : ServerState) (conn : Conn) : Msg → HResult
  | Msg.joinGame => joinGame srv conn
  | Msg.leaveGame => leaveGame srv conn
  | Msg.playerUpdate pos rot => playerUpdate srv conn pos rot
  | Msg.collectBerry => collectBerry srv conn
  | Msg.moveSnail => moveSnail srv conn
  | Msg.attackQueen => attackQueen srv conn
  | Msg.reconnectPlayer pid => reconnectPlayer srv conn pid
  | Msg.disconnect => disconnectHandler srv conn

/-- One step of the whole system: connection `cid` sends message `m`. -/
def sysStep (sys : SysState) (cid : Nat) (m : Msg) : SysState :=
  let r := dispatch sys.srv (getConn sys cid) m
  ⟨r.srv, setConn sys.conns cid r.conn⟩

/-! ### Roster counting, for the queen-uniqueness invariant -/

/-- The players of team `t`, in roster order (`teamPlayers` in
`assignTeamAndRole`). -/
def teamPlayersOf (players : List Player) (t : Team) : List Player :=
  players.filter (fun p => decide (p.team = t))

/-- Number of players of team `t`. -/
def teamCount (players : List Player) (t : Team) : Nat :=
  (teamPlayersOf players t).length

/-- Number of players of team `t` whose role is queen. -/
def queenCount (players : List Player) (t : Team) : Nat :=
  ((teamPlayersOf players t).filter (fun p => decide (p.role = Role.queen))).length

/-- Every team with at least one member has exactly one queen. -/
def oneQueenInv (g : GameState) : Prop :=
  ∀ t : Team, 0 < teamCount g.players t → queenCount g.players t = 1

/-- A sequence of `joinGame` calls, each issued by a connection carrying the
given per-connection data (the server ignores everything about the caller
except `hasJoined` and the bound id). -/
def applyJoins (srv : ServerState) : List Conn → ServerState
  | [] => srv
  | c :: cs => applyJoins (joinGame srv c).srv cs

/-- Read a team's military score. -/
def scoreOf (g : GameState) (t : Team) : Nat :=
  match t with
  | Team.blue => g.blueScore
  | Team.gold => g.goldScore

/-- The player record inserted by `insertNewPlayer`. -/
def newPlayerOf (srv : ServerState) : Player :=
  { id := srv.nextId
    position := spawnPosition (assignTeamAndRole srv.game.players).1
    rotation := (0, 0, 0)
    team := (assignTeamAndRole srv.game.players).1
    role := (assignTeamAndRole srv.game.players).2
    isActive := true }

/-- Run a list of `(connection id, message)` steps against the system. -/
def runMsgs (sys : SysState) : List (Nat × Msg) → SysState
  | [] => sys
  | (cid, m) :: rest => runMsgs (sysStep sys cid m) rest

/-! ### Concrete fixtures used by witnesses and counterexamples -/

/-- A connection bound to player id 0. -/
def wConn0 : Conn := ⟨true, some 0⟩

/-- A blue worker with id 0. -/
def wWorkerBlue : Player := ⟨0, (-15, 5, 0), (0, 0, 0), Team.blue, Role.worker, true⟩

/-- A game in progress whose only player is the blue worker 0. -/
def wSrvWorker : ServerState :=
  ⟨{ initialGameState with players := [wWorkerBlue], status := Status.playing }, 1⟩

/-- A gold soldier with id 0. -/
def wSoldierGold : Player := ⟨0, (15, 5, 0), (0, 0, 0), Team.gold, Role.soldier, true⟩

/-- A game in progress whose only player is the gold soldier 0. -/
def wSrvSoldier : ServerState :=
  ⟨{ initialGameState with players := [wSoldierGold], status := Status.playing }, 1⟩

/-- A disconnected (inactive) blue queen with id 0, as left behind by the
`disconnect` or `leaveGame` handler before its removal sweep fires. -/
def cxInactive : Player := ⟨0, (-15, 5, 0), (0, 0, 0), Team.blue, Role.queen, false⟩

def cxInactiveSrv : ServerState := ⟨{ initialGameState with players := [cxInactive] }, 1⟩

/-- The end-to-end scenario of the spec: three sockets join (blue queen,
gold queen, blue worker); the result of the third join carries the worker's
connection data. -/
def scenarioJoin3 : HResult :=
  joinGame (joinGame (joinGame initialServerState freshConn).srv freshConn).srv freshConn

/-- Repeat `collectBerry` from the same connection. -/
def iterCollect : Nat → ServerState → Conn → ServerState
  | 0, srv, _ => srv
  | n + 1, srv, c => iterCollect n (collectBerry srv c).srv c

/-- The server state after the blue worker of `scenarioJoin3` has collected
twelve berries: the game has ended economically. -/
def endedSrv : ServerState := iterCollect 12 scenarioJoin3.srv scenarioJoin3.conn

/-- Six joins (blue queen, gold queen, blue worker, gold worker, blue
soldier 4, gold soldier 5), three attacks by blue soldier 4 (ending the game
with `blueScore = 3`), then two attacks by gold soldier 5. -/
def cxAttackRun : SysState :=
  runMsgs initialSysState
    [(0, Msg.joinGame), (1, Msg.joinGame), (2, Msg.joinGame), (3, Msg.joinGame),
     (4, Msg.joinGame), (5, Msg.joinGame),
     (4, Msg.attackQueen), (4, Msg.attackQueen), (4, Msg.attackQueen),
     (5, Msg.attackQueen), (5, Msg.attackQueen)]

/-- Socket 0 joins (becoming player 0), then socket 1 reconnects claiming
player 0's id while socket 0 is still live. -/
def dupBindSys : SysState :=
  sysStep (sysStep initialSysState 0 Msg.joinGame) 1 (Msg.reconnectPlayer 0)

/-! ### Helper lemmas -/

theorem insertNewPlayer_eq (srv : ServerState) :
    insertNewPlayer srv =
      (⟨{ srv.game with
            players := srv.game.players ++ [newPlayerOf srv]
            status :=
              if srv.game.status = Status.waiting ∧
                  2 ≤ (srv.game.players ++ [newPlayerOf srv]).length then Status.playing
              else srv.game.status },
         srv.nextId + 1⟩,
       ⟨true, some srv.nextId⟩, srv.nextId,
       (assignTeamAndRole srv.game.players).1, (assignTeamAndRole srv.game.players).2) := by
  unfold insertNewPlayer newPlayerOf
  rcases hA : assignTeamAndRole srv.game.players with ⟨tm, rl⟩
  simp [hA]

theorem teamCount_append (ps : List Player) (p : Player) (t : Team) :
    teamCount (ps ++ [p]) t = teamCount ps t + (if p.team = t then 1 else 0) := by
  by_cases h : p.team = t <;>
    simp [teamCount, teamPlayersOf, List.filter_append, h]

theorem queenCount_append (ps : List Player) (p : Player) (t : Team) :
    queenCount (ps ++ [p]) t
      = queenCount ps t + (if p.team = t ∧ p.role = Role.queen then 1 else 0) := by
  by_cases ht : p.team = t
  · by_cases hr : p.role = Role.queen <;>
      simp [queenCount, teamPlayersOf, List.filter_append, ht, hr]
  · simp [queenCount, teamPlayersOf, List.filter_append, ht]

theorem queenCount_le_teamCount (ps : List Player) (t : Team) :
    queenCount ps t ≤ teamCount ps t :=
  List.length_filter_le _ _

/-- The role handed out by `assignTeamAndRole` is queen exactly when the
chosen team currently has no queen. -/
theorem assign_role_queen_iff (ps : List Player) :
    (assignTeamAndRole ps).2 = Role.queen
      ↔ queenCount ps (assignTeamAndRole ps).1 = 0 := by
  unfold assignTeamAndRole
  simp only []
  generalize (if (ps.filter fun p => decide (p.team = Team.blue)).length
      ≤ (ps.filter fun p => decide (p.team = Team.gold)).length
    then Team.blue else Team.gold) = t
  by_cases h0 : (ps.filter fun p => decide (p.team = t)).length = 0
  · have hz : queenCount ps t = 0 :=
      Nat.le_zero.mp (le_trans (queenCount_le_teamCount ps t)
        (le_of_eq (show teamCount ps t = 0 from h0)))
    simp [h0, hz]
  · rw [if_neg h0]
    by_cases hq : ((ps.filter fun p => decide (p.team = t)).any
        fun p => decide (p.role = Role.queen)) = true
    · have hpos : 0 < queenCount ps t := by
        rw [List.any_eq_true] at hq
        obtain ⟨x, hx, hqx⟩ := hq
        simp only [queenCount, teamPlayersOf]
        rw [List.length_pos]
        intro hnil
        have : x ∈ ([] : List Player) := by
          rw [← hnil]
          exact List.mem_filter.2 ⟨hx, hqx⟩
        simp at this
      rw [if_neg (by simp [hq])]
      constructor
      · intro hcon
        exfalso
        revert hcon
        split <;> simp
      · intro hz
        rw [hz] at hpos
        exact absurd hpos (lt_irrefl 0)
    · have hz : queenCount ps t = 0 := by
        simp only [queenCount, teamPlayersOf, List.length_eq_zero]
        rw [List.filter_eq_nil_iff]
        intro a ha
        rw [List.any_eq_true] at hq
        push_neg at hq
        exact hq a ha
      rw [if_pos (by simp [hq])]
      simp [hz]

theorem joinGame_preserves_oneQueen (srv : ServerState) (c : Conn)
    (h : oneQueenInv srv.game) : oneQueenInv (joinGame srv c).srv.game := by
  unfold joinGame
  split
  · exact h
  · rw [insertNewPlayer_eq]
    intro t ht
    simp only [teamCount_append] at ht
    rw [queenCount_append]
    by_cases hpt : (newPlayerOf srv).team = t
    · by_cases hq : (newPlayerOf srv).role = Role.queen
      · have hrq : (assignTeamAndRole srv.game.players).2 = Role.queen := hq
        have hteq : (assignTeamAndRole srv.game.players).1 = t := hpt
        have h0 : queenCount srv.game.players t = 0 :=
          hteq ▸ (assign_role_queen_iff srv.game.players).1 hrq
        rw [h0, if_pos ⟨hpt, hq⟩]
      · have hrq : (assignTeamAndRole srv.game.players).2 ≠ Role.queen := hq
        have hteq : (assignTeamAndRole srv.game.players).1 = t := hpt
        have hne : queenCount srv.game.players t ≠ 0 := by
          rw [← hteq]
          exact fun hz => hrq ((assign_role_queen_iff srv.game.players).2 hz)
        have hpos : 0 < teamCount srv.game.players t :=
          lt_of_lt_of_le (Nat.pos_of_ne_zero hne) (queenCount_le_teamCount _ _)
        rw [h t hpos, if_neg (fun hc => hq hc.2)]
    · rw [if_neg (fun hc : _ ∧ _ => hpt hc.1)]
      rw [if_neg hpt] at ht
      simp only [Nat.add_zero] at ht ⊢
      exact h t ht

theorem applyJoins_oneQueen (cs : List Conn) (srv : ServerState)
    (h : oneQueenInv srv.game) : oneQueenInv (applyJoins srv cs).game := by
  induction cs generalizing srv with
  | nil => exact h
  | cons c cs ih => exact ih _ (joinGame_preserves_oneQueen srv c h)

/-- C1: for every sequence of `joinGame` calls starting from the initial
empty `GameState` (no leaves or disconnects interleaved), after each call
every team that has at least one member has exactly one player whose role
is queen. -/
theorem joinGame_oneQueen_invariant (cs : List Conn) :
    oneQueenInv (applyJoins initialServerState cs).game :=
  applyJoins_oneQueen cs initialServerState (by
    intro t ht
    simp [teamCount, teamPlayersOf, initialServerState, initialGameState] at ht)

/-- Berry counters after a bump: the bumped team's counter grows by one and
the other team's counter is untouched, whatever else changed in the record. -/
theorem berryOf_bump (b : BerryCount) (u t : Team) :
    (match t with
      | Team.blue => (bumpBerry b u).blue
      | Team.gold => (bumpBerry b u).gold)
      = (if u = t then 1 else 0) +
        (match t with
          | Team.blue => b.blue
          | Team.gold => b.gold) := by
  cases u <;> cases t <;> simp [bumpBerry] <;> omega

/-- C3: a `collectBerry` call from a bound player whose role is worker
increments exactly the caller's team's berry counter by one and no other
team's counter; from a bound non-worker it leaves the whole state, the
connection data, the event list and the timer list unchanged. -/
theorem collectBerry_team_counters (srv : ServerState) (conn : Conn)
    (pid : Nat) (player : Player)
    (hbind : conn.playerId = some pid)
    (hfind : findPlayer srv.game pid = some player) :
    (player.role = Role.worker →
       berryOf (collectBerry srv conn).srv.game player.team
         = berryOf srv.game player.team + 1 ∧
       ∀ t : Team, t ≠ player.team →
         berryOf (collectBerry srv conn).srv.game t = berryOf srv.game t) ∧
    (player.role ≠ Role.worker → collectBerry srv conn = ⟨srv, conn, [], []⟩) := by
  unfold collectBerry
  rw [hbind]
  simp only [hfind]
  constructor
  · intro hw
    rw [if_pos hw]
    constructor
    · split <;> cases htm : player.team <;> simp [berryOf, bumpBerry]
    · intro t htne
      split <;> cases htm : player.team <;> cases t <;>
        simp_all [berryOf, bumpBerry]
  · intro hnw
    rw [if_neg hnw]

/-- C3 witness: the blue worker of `wSrvWorker` collects a berry and blue's
counter grows from 0 to 1. -/
theorem collectBerry_team_counters_witness :
    berryOf (collectBerry wSrvWorker wConn0).srv.game Team.blue
      = berryOf wSrvWorker.game Team.blue + 1 :=
  ((collectBerry_team_counters wSrvWorker wConn0 0 wWorkerBlue rfl rfl).1 rfl).1

/-- C2 counterexample: in the spec scenario the twelfth berry has ended the
game (`status = ended`, `berryCount.blue = 12`), yet a thirteenth
`collectBerry` by the same blue worker both increments the stored counter
and emits a further `gameOver{winner:blue, reason:economic}` — the code
re-tests `berryCount >= 12` on every call and never gates on `status`. -/
theorem collectBerry_repeat_gameOver_counterexample :
    endedSrv.game.status = Status.ended ∧
    endedSrv.game.berryCount.blue = 12 ∧
    (collectBerry endedSrv scenarioJoin3.conn).srv.game.berryCount.blue = 13 ∧
    Event.gameOver Team.blue Reason.economic
      ∈ (collectBerry endedSrv scenarioJoin3.conn).events := by
  decide

/-- C2 (amended): when a `collectBerry` call by a worker raises the caller's
team's `berryCount` to 12, `status` is set to `ended` and exactly one
`gameOver{reason:economic}` is emitted on that call; every subsequent
`collectBerry` call by a worker of that team still increments the stored
counter, and — the count now being ≥ 12 — again sets `status` to `ended`
and emits one further `gameOver{reason:economic}` per call, rather than
none. -/
theorem collectBerry_threshold (srv : ServerState) (conn : Conn)
    (pid : Nat) (player : Player)
    (hbind : conn.playerId = some pid)
    (hfind : findPlayer srv.game pid = some player)
    (hw : player.role = Role.worker) :
    berryOf (collectBerry srv conn).srv.game player.team
      = berryOf srv.game player.team + 1 ∧
    (12 ≤ berryOf srv.game player.team + 1 →
       (collectBerry srv conn).srv.game.status = Status.ended ∧
       (collectBerry srv conn).events
         = [Event.gameOver player.team Reason.economic, Event.gameState]) ∧
    (berryOf srv.game player.team + 1 < 12 →
       (collectBerry srv conn).srv.game.status = srv.game.status ∧
       (collectBerry srv conn).events = [Event.gameState]) := by
  unfold collectBerry
  rw [hbind]
  simp only [hfind]
  rw [if_pos hw]
  cases htm : player.team <;>
    split <;>
    simp_all [berryOf, bumpBerry]

/-- C2 witness: the thirteenth berry of the scenario — count goes 12 → 13,
status stays `ended`, and the call emits one more economic `gameOver`. -/
theorem collectBerry_threshold_witness :
    berryOf (collectBerry endedSrv scenarioJoin3.conn).srv.game Team.blue
      = berryOf endedSrv.game Team.blue + 1 ∧
    (12 ≤ berryOf endedSrv.game Team.blue + 1 →
       (collectBerry endedSrv scenarioJoin3.conn).srv.game.status = Status.ended ∧
       (collectBerry endedSrv scenarioJoin3.conn).events
         = [Event.gameOver Team.blue Reason.economic, Event.gameState]) ∧
    (berryOf endedSrv.game Team.blue + 1 < 12 →
       (collectBerry endedSrv scenarioJoin3.conn).srv.game.status = endedSrv.game.status ∧
       (collectBerry endedSrv scenarioJoin3.conn).events = [Event.gameState]) :=
  collectBerry_threshold endedSrv scenarioJoin3.conn 2
    ⟨2, (-15, 5, 0), (0, 0, 0), Team.blue, Role.worker, true⟩ (by decide) (by decide) rfl

/-- C4: a `moveSnail` call from a bound worker shifts `snailPosition` by +1
for blue and −1 for gold, clamped to [0,100]; a result of 100 ends the game
with `gameOver{winner:blue, reason:snail}`, a result of 0 with
`gameOver{winner:gold, reason:snail}`; any other result leaves `status`
unchanged; a bound non-worker changes nothing at all. -/
theorem moveSnail_shift_and_victory (srv : ServerState) (conn : Conn)
    (pid : Nat) (player : Player)
    (hbind : conn.playerId = some pid)
    (hfind : findPlayer srv.game pid = some player) :
    (player.role = Role.worker →
       (moveSnail srv conn).srv.game.snailPosition
         = min 100 (max 0 (srv.game.snailPosition
             + (if player.team = Team.blue then 1 else -1))) ∧
       ((moveSnail srv conn).srv.game.snailPosition = 100 →
          (moveSnail srv conn).srv.game.status = Status.ended ∧
          (moveSnail srv conn).events
            = [Event.gameOver Team.blue Reason.snail, Event.gameState]) ∧
       ((moveSnail srv conn).srv.game.snailPosition = 0 →
          (moveSnail srv conn).srv.game.status = Status.ended ∧
          (moveSnail srv conn).events
            = [Event.gameOver Team.gold Reason.snail, Event.gameState]) ∧
       ((moveSnail srv conn).srv.game.snailPosition ≠ 100 →
        (moveSnail srv conn).srv.game.snailPosition ≠ 0 →
          (moveSnail srv conn).srv.game.status = srv.game.status ∧
          (moveSnail srv conn).events = [Event.gameState])) ∧
    (player.role ≠ Role.worker → moveSnail srv conn = ⟨srv, conn, [], []⟩) := by
  unfold moveSnail
  rw [hbind]
  simp only [hfind]
  constructor
  · intro hw
    rw [if_pos hw]
    split <;> split <;> (try split) <;>
      refine ⟨rfl, ?_, ?_, ?_⟩ <;> intros <;>
      (try exact ⟨rfl, rfl⟩) <;> exfalso <;> dsimp only at * <;> omega
  · intro hnw
    rw [if_neg hnw]

/-- C4 witness: the blue worker of `wSrvWorker` pushes the snail from 50 to
51; neither endpoint is reached, so the status stays `playing`. -/
theorem moveSnail_shift_and_victory_witness :
    (moveSnail wSrvWorker wConn0).srv.game.snailPosition
      = min 100 (max 0 (wSrvWorker.game.snailPosition + 1)) :=
  ((moveSnail_shift_and_victory wSrvWorker wConn0 0 wWorkerBlue rfl rfl).1 rfl).1

/-- C5 counterexample: in a run reachable from the initial state (six joins,
three attacks by the blue soldier — ending the game at `blueScore = 3` —
then two by the gold soldier), a further `attackQueen` by the gold soldier
raises the attacker's own score to 3, but the `gameOver` it emits names
`blue` as the winner, not the attacker's team: the handler tests
`blueScore >= 3` first. -/
theorem attackQueen_wrong_winner_counterexample :
    getConn cxAttackRun 5 = ⟨true, some 5⟩ ∧
    findPlayer cxAttackRun.srv.game 5
      = some ⟨5, (15, 5, 0), (0, 0, 0), Team.gold, Role.soldier, true⟩ ∧
    cxAttackRun.srv.game.goldScore = 2 ∧
    cxAttackRun.srv.game.blueScore = 3 ∧
    (dispatch cxAttackRun.srv (getConn cxAttackRun 5) Msg.attackQueen).srv.game.goldScore = 3 ∧
    Event.gameOver Team.gold Reason.military
      ∉ (dispatch cxAttackRun.srv (getConn cxAttackRun 5) Msg.attackQueen).events ∧
    Event.gameOver Team.blue Reason.military
      ∈ (dispatch cxAttackRun.srv (getConn cxAttackRun 5) Msg.attackQueen).events := by
  refine ⟨rfl, by decide, by decide, by decide, by decide, by decide, by decide⟩

/-- C5 (amended): an `attackQueen` call from a bound soldier sets the
opposing team's queen-alive flag to false and increments the attacker's own
team's score by 1 (the opposing score and the attacker's own queen flag are
untouched); whenever a score reaches 3 the status becomes `ended`; the
emitted `gameOver` names the attacker's team as winner provided the
opposing team's score is still below 3 (the handler checks
`blueScore >= 3` before `goldScore >= 3`, so a gold attacker whose opponent
already holds 3 points sees `winner = blue` instead); a call from a
non-soldier changes nothing at all. -/
theorem attackQueen_scores_and_victory (srv : ServerState) (conn : Conn)
    (pid : Nat) (player : Player)
    (hbind : conn.playerId = some pid)
    (hfind : findPlayer srv.game pid = some player) :
    (player.role = Role.soldier →
       queenAliveOf (attackQueen srv conn).srv.game (oppositeTeam player.team) = false ∧
       scoreOf (attackQueen srv conn).srv.game player.team
         = scoreOf srv.game player.team + 1 ∧
       scoreOf (attackQueen srv conn).srv.game (oppositeTeam player.team)
         = scoreOf srv.game (oppositeTeam player.team) ∧
       queenAliveOf (attackQueen srv conn).srv.game player.team
         = queenAliveOf srv.game player.team ∧
       ((3 ≤ scoreOf srv.game player.team + 1
           ∨ 3 ≤ scoreOf srv.game (oppositeTeam player.team)) →
          (attackQueen srv conn).srv.game.status = Status.ended) ∧
       (scoreOf srv.game (oppositeTeam player.team) < 3 →
        3 ≤ scoreOf srv.game player.team + 1 →
          (attackQueen srv conn).events
            = [Event.gameOver player.team Reason.military, Event.gameState]) ∧
       (scoreOf srv.game (oppositeTeam player.team) < 3 →
        scoreOf srv.game player.team + 1 < 3 →
          (attackQueen srv conn).events = [Event.gameState] ∧
          (attackQueen srv conn).srv.game.status = srv.game.status)) ∧
    (player.role ≠ Role.soldier → attackQueen srv conn = ⟨srv, conn, [], []⟩) := by
  unfold attackQueen
  rw [hbind]
  simp only [hfind]
  constructor
  · intro hs
    rw [if_pos hs]
    cases htm : player.team <;>
      simp only [oppositeTeam, scoreOf, queenAliveOf] <;>
      simp only [reduceCtorEq, if_neg, if_pos, ite_true, ite_false] <;>
      split <;> (try split) <;>
      refine ⟨rfl, rfl, rfl, rfl, ?_, ?_, ?_⟩ <;> intros <;>
      first
        | rfl
        | exact ⟨rfl, rfl⟩
        | (exfalso; omega)
  · intro hnw
    rw [if_neg hnw]

/-- C5 witness: the gold soldier of `wSrvSoldier` attacks and the blue
queen's alive flag drops to false. -/
theorem attackQueen_scores_and_victory_witness :
    queenAliveOf (attackQueen wSrvSoldier wConn0).srv.game Team.blue = false :=
  ((attackQueen_scores_and_victory wSrvSoldier wConn0 0 wSoldierGold rfl rfl).1 rfl).1

/-- C6: every `attackQueen` by a bound soldier schedules exactly one respawn
timer targeting the opposing queen; when that timer fires — whatever the
game state has become in the meantime, including the game having ended or
the queen having been attacked again — it sets the targeted queen's alive
flag back to true, broadcasts one `gameState`, and changes nothing else. -/
theorem attackQueen_schedules_respawn (srv : ServerState) (conn : Conn)
    (pid : Nat) (player : Player)
    (hbind : conn.playerId = some pid)
    (hfind : findPlayer srv.game pid = some player)
    (hs : player.role = Role.soldier) :
    (attackQueen srv conn).timers = [Timer.queenRespawn (oppositeTeam player.team)] ∧
    ∀ g : GameState,
      queenAliveOf (fireQueenRespawn (oppositeTeam player.team) g).1
          (oppositeTeam player.team) = true ∧
      (fireQueenRespawn (oppositeTeam player.team) g).2 = [Event.gameState] ∧
      (fireQueenRespawn (oppositeTeam player.team) g).1.status = g.status ∧
      (fireQueenRespawn (oppositeTeam player.team) g).1.players = g.players ∧
      (fireQueenRespawn (oppositeTeam player.team) g).1.blueScore = g.blueScore ∧
      (fireQueenRespawn (oppositeTeam player.team) g).1.goldScore = g.goldScore ∧
      (fireQueenRespawn (oppositeTeam player.team) g).1.snailPosition = g.snailPosition ∧
      (fireQueenRespawn (oppositeTeam player.team) g).1.berryCount = g.berryCount ∧
      queenAliveOf (fireQueenRespawn (oppositeTeam player.team) g).1 player.team
        = queenAliveOf g player.team := by
  constructor
  · unfold attackQueen
    rw [hbind]
    simp only [hfind]
    rw [if_pos hs]
    split <;> (try split) <;> (try split) <;> rfl
  · intro g
    cases player.team <;>
      simp [oppositeTeam, fireQueenRespawn, queenAliveOf]

/-- C6 witness: the gold soldier's attack schedules one respawn timer for
the blue queen. -/
theorem attackQueen_schedules_respawn_witness :
    (attackQueen wSrvSoldier wConn0).timers = [Timer.queenRespawn Team.blue] :=
  (attackQueen_schedules_respawn wSrvSoldier wConn0 0 wSoldierGold rfl rfl rfl).1

/-- C7 counterexample: the bound player 0 of `cxInactiveSrv` has
`isActive = false`, yet `playerUpdate` still applies the movement: the
handler only checks that the bound id resolves to a roster entry, never
`isActive`, so the state does change. -/
theorem playerUpdate_inactive_applied_counterexample :
    findPlayer cxInactiveSrv.game 0 = some cxInactive ∧
    cxInactive.isActive = false ∧
    (playerUpdate cxInactiveSrv wConn0 (1, 2, 3) (4, 5, 6)).srv.game.players
      = [⟨0, (1, 2, 3), (4, 5, 6), Team.blue, Role.queen, false⟩] ∧
    (playerUpdate cxInactiveSrv wConn0 (1, 2, 3) (4, 5, 6)).srv.game
      ≠ cxInactiveSrv.game := by
  refine ⟨rfl, rfl, rfl, by decide⟩

/-- C7 (amended): the `playerUpdate` handler requires only that the
connection's bound id resolves to a roster entry — it never reads
`isActive`.  Whenever the bound player exists (active or not) it overwrites
that player's position and rotation in place, touches no win-condition
field, and emits one delta update; when the connection is unbound, or the
bound id is absent from the roster, the whole state is unchanged. -/
theorem playerUpdate_overwrites_pose (srv : ServerState) (conn : Conn)
    (pos rot : Vec3) :
    (∀ pid player, conn.playerId = some pid → findPlayer srv.game pid = some player →
       (playerUpdate srv conn pos rot).srv.game.players
         = srv.game.players.map (fun p =>
             if p.id == pid then { p with position := pos, rotation := rot } else p) ∧
       (playerUpdate srv conn pos rot).srv.game.status = srv.game.status ∧
       (playerUpdate srv conn pos rot).srv.game.blueScore = srv.game.blueScore ∧
       (playerUpdate srv conn pos rot).srv.game.goldScore = srv.game.goldScore ∧
       (playerUpdate srv conn pos rot).srv.game.blueQueenAlive = srv.game.blueQueenAlive ∧
       (playerUpdate srv conn pos rot).srv.game.goldQueenAlive = srv.game.goldQueenAlive ∧
       (playerUpdate srv conn pos rot).srv.game.snailPosition = srv.game.snailPosition ∧
       (playerUpdate srv conn pos rot).srv.game.berryCount = srv.game.berryCount ∧
       (playerUpdate srv conn pos rot).conn = conn ∧
       (playerUpdate srv conn pos rot).events
         = [Event.playerPositionUpdate pid pos rot]) ∧
    (conn.playerId = none →
       playerUpdate srv conn pos rot = ⟨srv, conn, [], []⟩) ∧
    (∀ pid, conn.playerId = some pid → findPlayer srv.game pid = none →
       playerUpdate srv conn pos rot = ⟨srv, conn, [], []⟩) := by
  refine ⟨?_, ?_, ?_⟩
  · intro pid player hbind hfind
    unfold playerUpdate
    rw [hbind]
    simp [hfind]
  · intro hnone
    unfold playerUpdate
    rw [hnone]
  · intro pid hbind hnf
    unfold playerUpdate
    rw [hbind]
    simp only [hnf]

/-- C7 witness: the update of the counterexample, reached through the
amended theorem: the inactive player's pose is overwritten. -/
theorem playerUpdate_overwrites_pose_witness :
    (playerUpdate cxInactiveSrv wConn0 (1, 2, 3) (4, 5, 6)).srv.game.players
      = cxInactiveSrv.game.players.map (fun p =>
          if p.id == 0 then { p with position := (1, 2, 3), rotation := (4, 5, 6) } else p) :=
  ((playerUpdate_overwrites_pose cxInactiveSrv wConn0 (1, 2, 3) (4, 5, 6)).1
    0 cxInactive rfl rfl).1

/-- C8: a `reconnectPlayer` whose id is absent from the roster is never an
error: its result coincides with a fresh `joinGame` on a new connection —
it allocates the next fresh id, runs team/role assignment on the current
roster, appends an active player at the team-dependent spawn position,
performs the waiting→playing transition at roster size 2, binds the caller,
and emits `playerAssigned` followed by the state broadcast. -/
theorem reconnect_unknown_acts_as_join (srv : ServerState) (conn : Conn) (pid : Nat)
    (hunknown : findPlayer srv.game pid = none) :
    reconnectPlayer srv conn pid = joinGame srv freshConn ∧
    (reconnectPlayer srv conn pid).srv.game.players
      = srv.game.players ++ [newPlayerOf srv] ∧
    (newPlayerOf srv).id = srv.nextId ∧
    (newPlayerOf srv).isActive = true ∧
    (newPlayerOf srv).position = spawnPosition (newPlayerOf srv).team ∧
    (reconnectPlayer srv conn pid).conn = ⟨true, some srv.nextId⟩ ∧
    (reconnectPlayer srv conn pid).events
      = [Event.playerAssigned srv.nextId (assignTeamAndRole srv.game.players).1
           (assignTeamAndRole srv.game.players).2, Event.gameState] ∧
    (reconnectPlayer srv conn pid).srv.game.status
      = (if srv.game.status = Status.waiting ∧ 2 ≤ srv.game.players.length + 1
         then Status.playing else srv.game.status) := by
  have hre : reconnectPlayer srv conn pid = joinGame srv freshConn := by
    unfold reconnectPlayer joinGame freshConn
    simp only [hunknown]
    rcases hI : insertNewPlayer srv with ⟨srv', conn', npid, tm, rl⟩
    simp
  refine ⟨hre, ?_, rfl, rfl, rfl, ?_, ?_, ?_⟩ <;>
    rw [hre] <;>
    unfold joinGame freshConn <;>
    rw [insertNewPlayer_eq] <;>
    simp [List.length_append]

/-- C8 witness: reconnecting with the unknown id 99 against the initial
empty state coincides with a fresh join. -/
theorem reconnect_unknown_acts_as_join_witness :
    reconnectPlayer initialServerState wConn0 99
      = joinGame initialServerState freshConn :=
  (reconnect_unknown_acts_as_join initialServerState wConn0 99 rfl).1

/-- C9 counterexample: socket 0 joins and becomes player 0; socket 1 then
sends `reconnectPlayer{playerId: 0}` while socket 0 is still connected.
Both live sockets end up bound to player 0: the existing-id branch of the
reconnect handler rebinds unconditionally, never checking whether another
connection already holds the id. -/
theorem session_binding_not_unique_counterexample :
    getConn dupBindSys 0 = ⟨true, some 0⟩ ∧
    getConn dupBindSys 1 = ⟨true, some 0⟩ ∧
    findPlayer dupBindSys.srv.game 0 ≠ none := by
  exact ⟨rfl, rfl, by decide⟩

/-- C9 (amended): each connection holds at most one bound playerId at a
time, but a Player is not bound to at most one live connection:
`reconnectPlayer` with an existing id binds the calling connection to it
unconditionally and leaves every other connection's binding untouched, so
two simultaneously connected sockets can both be bound to the same
playerId. -/
theorem reconnect_rebinds_regardless (sys : SysState) (cid pid : Nat)
    (hexists : ∃ q, findPlayer sys.srv.game pid = some q) :
    getConn (sysStep sys cid (Msg.reconnectPlayer pid)) cid = ⟨true, some pid⟩ ∧
    ∀ cid' : Nat, cid' ≠ cid →
      getConn (sysStep sys cid (Msg.reconnectPlayer pid)) cid' = getConn sys cid' := by
  obtain ⟨q, hq⟩ := hexists
  unfold sysStep dispatch reconnectPlayer
  simp only [hq]
  constructor
  · unfold getConn setConn
    simp
  · intro cid' hne
    unfold getConn setConn
    simp [hne]

/-- C9 witness: socket 1 of the counterexample run really is rebound to the
still-connected player 0. -/
theorem reconnect_rebinds_regardless_witness :
    getConn dupBindSys 1 = ⟨true, some 0⟩ :=
  (reconnect_rebinds_regardless (sysStep initialSysState 0 Msg.joinGame) 1 0
    ⟨⟨0, (-15, 5, 0), (0, 0, 0), Team.blue, Role.queen, true⟩, rfl⟩).1

/-- C10: firing the periodic idle reset while `status = ended` replaces the
whole `GameState` with a fresh initial value but clears no per-connection
data.  A connection that was bound keeps a playerId now absent from the
empty roster, so `playerUpdate`, `collectBerry`, `moveSnail`, `attackQueen`
and `leaveGame` from it are all silent no-ops; its `hasJoined` flag is
still set, so `joinGame` is ignored too; `reconnectPlayer` is the one
recovery path, falling back to creating a brand-new player (blue queen on
the empty roster) with a fresh id. -/
theorem idleReset_strands_bound_connections (srv : ServerState) (conn : Conn)
    (pid : Nat) (pos rot : Vec3)
    (hended : srv.game.status = Status.ended)
    (hjoined : conn.hasJoined = true)
    (hbound : conn.playerId = some pid) :
    (idleResetTick srv).1.game = initialGameState ∧
    findPlayer (idleResetTick srv).1.game pid = none ∧
    joinGame (idleResetTick srv).1 conn = ⟨(idleResetTick srv).1, conn, [], []⟩ ∧
    playerUpdate (idleResetTick srv).1 conn pos rot
      = ⟨(idleResetTick srv).1, conn, [], []⟩ ∧
    collectBerry (idleResetTick srv).1 conn = ⟨(idleResetTick srv).1, conn, [], []⟩ ∧
    moveSnail (idleResetTick srv).1 conn = ⟨(idleResetTick srv).1, conn, [], []⟩ ∧
    attackQueen (idleResetTick srv).1 conn = ⟨(idleResetTick srv).1, conn, [], []⟩ ∧
    leaveGame (idleResetTick srv).1 conn = ⟨(idleResetTick srv).1, conn, [], []⟩ ∧
    (reconnectPlayer (idleResetTick srv).1 conn pid).conn = ⟨true, some srv.nextId⟩ ∧
    (reconnectPlayer (idleResetTick srv).1 conn pid).srv.game.players
      = [newPlayerOf (idleResetTick srv).1] ∧
    (reconnectPlayer (idleResetTick srv).1 conn pid).events
      = [Event.playerAssigned srv.nextId Team.blue Role.queen, Event.gameState] := by
  have hrt : idleResetTick srv = (⟨initialGameState, srv.nextId⟩, [Event.gameState]) := by
    unfold idleResetTick resetGame
    rw [if_pos hended]
  rw [hrt]
  refine ⟨rfl, rfl, ?_, ?_, ?_, ?_, ?_, ?_, ?_, ?_, ?_⟩
  · unfold joinGame
    simp [hjoined]
  · unfold playerUpdate
    rw [hbound]
    rfl
  · unfold collectBerry
    rw [hbound]
    rfl
  · unfold moveSnail
    rw [hbound]
    rfl
  · unfold attackQueen
    rw [hbound]
    rfl
  · unfold leaveGame
    rw [hbound]
    rfl
  · rfl
  · rfl
  · rfl

/-- C10 witness: the reset of the ended scenario game strands the worker's
connection — its thirteen-berry game is gone and the roster is empty. -/
theorem idleReset_strands_bound_connections_witness :
    (idleResetTick endedSrv).1.game = initialGameState :=
  (idleReset_strands_bound_connections endedSrv scenarioJoin3.conn 2 (0, 0, 0) (0, 0, 0)
    (by decide) (by decide) (by decide)).1
